import Mathlib

/-!
# Verification of the Petnetizen feeder BLE protocol codec and session logic

Shallow embedding of `src/petnetizen_feeder/protocol.py`:

* `encode_command` models `FeederBLEProtocol.encode_command` (lines 153-176).
  Bytes are `Nat` values; the caller-supplied length override is an `Int`
  because the Python caller may pass any integer, including a negative one.
  Python's `bytearray.append` raises `ValueError` for a value outside
  `0..255`, so the model returns `Option`: `none` exactly where the Python
  function raises.  The payload is modelled as the byte list that
  `bytes.fromhex(action_hex)` yields (the hex-string transport in the source
  is a bijective renaming and is not modelled separately).
* `decode_notification` models `FeederBLEProtocol.decode_notification`
  (lines 178-301).  The Python function builds a `dict`; the model is the
  structure `DecodedNotification` whose fields are `Option`s, `none` meaning
  "key absent from the dict".  The presentation-only keys `raw` and
  `data_hex` (uppercase-hex renderings of `raw_bytes` / `data_bytes`) and the
  `*_text` companions are included where they are set independently;
  hex-string renderings determined byte-for-byte by a retained field are not
  duplicated.
* `is_feeder_by_name` and `detect_device_type` model the discovery filter
  (lines 66-84).
* `ensure_connected` models the control flow of
  `FeederBLEProtocol._ensure_connected` (lines 495-535) over an oracle of
  transport outcomes, recording the trace of transport actions attempted.
-/

namespace Petnetizen

/-! ## Encoder: `FeederBLEProtocol.encode_command` (protocol.py lines 153-176)

Python:
```
if length is None:
    length = len(action_hex) // 2
command_int = int(command, 16)
command_bytes = bytearray()
command_bytes.append(0xEA)        # Header
command_bytes.append(command_int) # Command byte  (ValueError if not 0..255)
command_bytes.append(length)      # Length byte   (ValueError if not 0..255)
if action_hex:
    command_bytes.extend(self.hex_string_to_bytes(action_hex))
command_bytes.append(0x00)        # CRC placeholder
command_bytes.append(0xAE)        # Footer
return bytes(command_bytes)
```
`command` is a hex string, so `command_int` is its numeric value (a `Nat`
here: protocol command ids are non-negative).  `len(action_hex) // 2` is the
payload byte count.  `extend` never raises for bytes, so the only failure
points are the two `append` calls, captured by the `Option`. -/

/-- Length actually written to the length byte: the override if supplied,
else `len(payload)` (the source's `len(action_hex) // 2`). -/
def effectiveLength (length : Option Int) (payload : List Nat) : Int :=
  length.getD (payload.length : Int)

/-- Model of `FeederBLEProtocol.encode_command`.  `none` models a raised
`ValueError` (command byte or length byte outside `0..255`); `some frame`
is the returned byte string. -/
def encode_command (command : Nat) (length : Option Int) (payload : List Nat) :
    Option (List Nat) :=
  if command ≤ 255 ∧ 0 ≤ effectiveLength length payload ∧
      effectiveLength length payload ≤ 255 then
    some ([0xEA, command, (effectiveLength length payload).toNat] ++ payload ++
      [0x00, 0xAE])
  else
    none

/-! ## Decoder data model: `FeederBLEProtocol.decode_notification` (lines 178-301) -/

/-- Python `f"{n:02d}"`: decimal, left-padded with `0` to at least two digits. -/
def pad2 (n : Nat) : String :=
  if n < 10 then "0" ++ toString n else toString n

/-- Whitespace characters stripped by Python's `str.strip()` (ASCII subset;
the names handled by this protocol are ASCII). -/
def isPyWhitespace (c : Char) : Bool :=
  c = ' ' ∨ c = '\t' ∨ c = '\n' ∨ c = '\r' ∨ c = '\x0b' ∨ c = '\x0c'

/-- Python `str.strip(chars)`: drop leading and trailing characters
satisfying `p`. -/
def pyStripBy (p : Char → Bool) (s : List Char) : List Char :=
  ((s.dropWhile p).reverse.dropWhile p).reverse

/-- Python `str.strip()` on a character list. -/
def pyStrip (s : List Char) : List Char :=
  pyStripBy isPyWhitespace s

/-- One step of `bytes.decode('utf-8', errors='ignore')`: a fuel-indexed
UTF-8 decoder that drops the maximal invalid subpart on error, as CPython's
`ignore` error handler does.  The fuel (initialised to the list length in
`pyDecodeUtf8Ignore`) only serves termination: every step consumes at least
one byte, so it never runs out. -/
def utf8IgnoreGo : Nat → List Nat → List Char
  | 0, _ => []
  | _ + 1, [] => []
  | fuel + 1, b :: rest =>
    if b < 0x80 then Char.ofNat b :: utf8IgnoreGo fuel rest
    else if 0xC2 ≤ b ∧ b ≤ 0xDF then
      match rest with
      | [] => []
      | b1 :: rest1 =>
        if 0x80 ≤ b1 ∧ b1 ≤ 0xBF then
          Char.ofNat ((b - 0xC0) * 64 + (b1 - 0x80)) :: utf8IgnoreGo fuel rest1
        else utf8IgnoreGo fuel rest
    else if 0xE0 ≤ b ∧ b ≤ 0xEF then
      match rest with
      | [] => []
      | b1 :: rest1 =>
        if (if b = 0xE0 then 0xA0 else 0x80) ≤ b1 ∧
            b1 ≤ (if b = 0xED then 0x9F else 0xBF) then
          match rest1 with
          | [] => []
          | b2 :: rest2 =>
            if 0x80 ≤ b2 ∧ b2 ≤ 0xBF then
              Char.ofNat ((b - 0xE0) * 4096 + (b1 - 0x80) * 64 + (b2 - 0x80)) ::
                utf8IgnoreGo fuel rest2
            else utf8IgnoreGo fuel rest1
        else utf8IgnoreGo fuel rest
    else if 0xF0 ≤ b ∧ b ≤ 0xF4 then
      match rest with
      | [] => []
      | b1 :: rest1 =>
        if (if b = 0xF0 then 0x90 else 0x80) ≤ b1 ∧
            b1 ≤ (if b = 0xF4 then 0x8F else 0xBF) then
          match rest1 with
          | [] => []
          | b2 :: rest2 =>
            if 0x80 ≤ b2 ∧ b2 ≤ 0xBF then
              match rest2 with
              | [] => []
              | b3 :: rest3 =>
                if 0x80 ≤ b3 ∧ b3 ≤ 0xBF then
                  Char.ofNat ((b - 0xF0) * 262144 + (b1 - 0x80) * 4096 +
                      (b2 - 0x80) * 64 + (b3 - 0x80)) :: utf8IgnoreGo fuel rest3
                else utf8IgnoreGo fuel rest2
            else utf8IgnoreGo fuel rest1
        else utf8IgnoreGo fuel rest
    else utf8IgnoreGo fuel rest

/-- Python `bytes.decode('utf-8', errors='ignore')`. -/
def pyDecodeUtf8Ignore (l : List Nat) : List Char :=
  utf8IgnoreGo l.length l

/-- `data.decode('utf-8', errors='ignore').strip('\x00').strip()`, the text
extraction used for the name/version fields of command `0x00`. -/
def decodeTrimmedText (l : List Nat) : List Char :=
  pyStrip (pyStripBy (· = '\x00') (pyDecodeUtf8Ignore l))

/-- One entry of `feed_records` (command `0x0C`, 9 bytes on the wire). -/
structure FeedRecord where
  timestamp : String
  portions : Nat
  feed_type : String
  status : String
  deriving Repr, DecidableEq

/-- One entry of `feed_plan_slots` (command `0x11`, 5 bytes on the wire). -/
structure ScheduleSlot where
  weekdays : List String
  time : String
  portions : Nat
  enabled : Bool
  deriving Repr, DecidableEq

/-- The `(bit, day)` table of the weekday decoding in the `0x11` branch. -/
def weekdayBits : List (Nat × String) :=
  [(1, "sun"), (2, "mon"), (4, "tue"), (8, "wed"),
   (16, "thu"), (32, "fri"), (64, "sat")]

/-- One schedule slot from its five wire bytes
`(week_val, hour, minute, portions, enabled)` (lines 281-294). -/
def slotOfBytes (w h m p e : Nat) : ScheduleSlot :=
  { weekdays := (weekdayBits.filter (fun bd => w &&& bd.1 ≠ 0)).map (·.2)
    time := pad2 h ++ ":" ++ pad2 m
    portions := p
    enabled := e ≠ 0 }

/-- The `while offset + 5 <= len(data_section)` loop of the `0x11` branch:
parse consecutive 5-byte slots, discarding a trailing partial slot. -/
def parseSlots : List Nat → List ScheduleSlot
  | w :: h :: m :: p :: e :: rest => slotOfBytes w h m p e :: parseSlots rest
  | _ => []

/-- Whether the `0x11` branch treats the first payload byte as a slot count
to skip: `len(ds) >= 1 and 1 <= ds[0] <= 15 and len(ds) >= 1 + 5*ds[0]`
(lines 275-279). -/
def slotCountSkipped (ds : List Nat) : Prop :=
  1 ≤ ds.length ∧ 1 ≤ ds.getD 0 0 ∧ ds.getD 0 0 ≤ 15 ∧
    1 + 5 * ds.getD 0 0 ≤ ds.length

instance (ds : List Nat) : Decidable (slotCountSkipped ds) := by
  unfold slotCountSkipped; infer_instance

/-- Full `feed_plan_slots` computation of the `0x11` branch (lines 270-297). -/
def feedPlanSlots (ds : List Nat) : List ScheduleSlot :=
  if slotCountSkipped ds then parseSlots (ds.drop 1) else parseSlots ds

/-- The `for i in range(len(data_section) // 9)` loop of the `0x0C` branch
(lines 250-266): consecutive 9-byte records, trailing partial record
discarded (the loop bound `num_records = len // 9` together with the
always-true `offset + 9 <= len` guard is exactly chunking by 9). -/
def parseFeedRecords : List Nat → List FeedRecord
  | y :: mo :: d :: h :: mi :: s :: p :: t :: st :: rest =>
    { timestamp := "20" ++ pad2 y ++ "-" ++ pad2 mo ++ "-" ++ pad2 d ++ " " ++
        pad2 h ++ ":" ++ pad2 mi ++ ":" ++ pad2 s
      portions := p
      feed_type := if t = 1 then "Manual" else if t = 2 then "Plan"
        else "Unknown(" ++ toString t ++ ")"
      status := if st = 0 then "Success" else if st = 1 then "Failed"
        else "Unknown(" ++ toString st ++ ")" } :: parseFeedRecords rest
  | _ => []

/-- The decoded-notification dictionary.  Every field is an `Option`; `none`
models "key absent from the Python dict".  The uppercase-hex renderings
`raw` and `data_hex` are determined byte-for-byte by `raw_bytes` and
`data_bytes` and are not duplicated as separate fields. -/
structure DecodedNotification where
  error : Option String := none
  raw_bytes : Option (List Nat) := none
  header : Option Nat := none
  command : Option Nat := none
  command_name : Option String := none
  footer : Option Nat := none
  length : Option Nat := none
  crc : Option Nat := none
  data_bytes : Option (List Nat) := none
  device_name : Option String := none
  device_version : Option String := none
  fault_code : Option Nat := none
  power_mode : Option String := none
  feeding_status : Option Nat := none
  feeding_status_text : Option String := none
  child_lock : Option Nat := none
  child_lock_text : Option String := none
  prompt_sound : Option Nat := none
  prompt_sound_text : Option String := none
  feed_response : Option Nat := none
  feed_response_text : Option String := none
  feed_records : Option (List FeedRecord) := none
  verification_response : Option Nat := none
  verification_success : Option Bool := none
  feed_plan_slots : Option (List ScheduleSlot) := none
  deriving Repr, DecidableEq

/-- The `command_map.get(command_hex, "UNKNOWN")` lookup (lines 196-205).
The Python key is `f"{command_byte:02X}"`; for every `Nat` value `c` that
rendering equals one of the twenty two-hex-digit keys exactly when `c` is
the key's value, so the lookup is modelled on the numeric value. -/
def commandName (c : Nat) : String :=
  if c = 0x00 then "NAME_AND_VERSION" else if c = 0x01 then "SET_NAME"
  else if c = 0x02 then "RESTORE_FACTORY" else if c = 0x03 then "HEARTBEAT"
  else if c = 0x04 then "QUERY_MAC" else if c = 0x05 then "SYNC_TIME"
  else if c = 0x06 then "SET_FAMILY_ID" else if c = 0x07 then "SET_FEEDER_PLAN"
  else if c = 0x08 then "FEEDING" else if c = 0x09 then "FEEDING_STATUS"
  else if c = 0x0A then "FAULT" else if c = 0x0B then "PLAN_FEED_RESULT"
  else if c = 0x0C then "MANUAL_FEED_RESULT" else if c = 0x0D then "CHILD_LOCK"
  else if c = 0x0E then "POWER_SUPPLY_METHOD" else if c = 0x0F then "CONTROL_LED"
  else if c = 0x10 then "AUTO_LOCK" else if c = 0x11 then "QUERY_FEEDER_PLAN"
  else if c = 0x12 then "REMINDER_TONE" else if c = 0x13 then "ATMOSPHERE_LIGHT"
  else "UNKNOWN"

/-- The `elif` chain of per-command parsing (lines 221-297), applied to the
partially-filled result `r`.  `c` is the command byte, `ds` the data
section.  The inner `try/except Exception: pass` of the `0x00` branch can
never fire (a lenient decode and `strip` do not raise), so it adds nothing
to the model. -/
def applyCommandParse (c : Nat) (ds : List Nat) (r : DecodedNotification) :
    DecodedNotification :=
  let b0 := ds.getD 0 0
  if c = 0x00 ∧ 12 ≤ ds.length then
    let nm := decodeTrimmedText (ds.take 12)
    let r1 := if nm ≠ [] then { r with device_name := some (String.mk nm) } else r
    if 12 < ds.length then
      let ver := decodeTrimmedText (ds.drop 12)
      if ver ≠ [] then { r1 with device_version := some (String.mk ver) } else r1
    else r1
  else if c = 0x0A ∧ 1 ≤ ds.length then
    { r with fault_code := some b0 }
  else if c = 0x0E ∧ 1 ≤ ds.length then
    { r with power_mode := some (if b0 = 0 then "Battery" else "DC Power") }
  else if c = 0x09 ∧ 1 ≤ ds.length then
    { r with feeding_status := some b0
             feeding_status_text := some (if b0 = 0 then "Idle"
               else if b0 = 1 then "Feeding" else if b0 = 2 then "Error"
               else "Unknown(" ++ toString b0 ++ ")") }
  else if c = 0x0D ∧ 1 ≤ ds.length then
    { r with child_lock := some b0
             child_lock_text := some (if b0 = 1 then "LOCKED" else "UNLOCKED") }
  else if c = 0x12 ∧ 1 ≤ ds.length then
    { r with prompt_sound := some b0
             prompt_sound_text := some (if b0 = 1 then "ON" else "OFF") }
  else if c = 0x08 ∧ 1 ≤ ds.length then
    { r with feed_response := some b0
             feed_response_text := some (if b0 = 1 then "Triggered"
               else "Status(" ++ toString b0 ++ ")") }
  else if c = 0x0C ∧ 9 ≤ ds.length then
    let recs := parseFeedRecords ds
    if recs ≠ [] then { r with feed_records := some recs } else r
  else if c = 0x06 ∧ 1 ≤ ds.length then
    { r with verification_response := some b0
             verification_success := some (b0 = 1) }
  else if c = 0x11 then
    let slots := feedPlanSlots ds
    if slots ≠ [] then { r with feed_plan_slots := some slots } else r
  else r

/-- The data-section slice of lines 213-217: `data[3:-2] if len(data) > 5
else data[3:-1]`.  (In the source this expression only runs under
`len(data) >= 6`, which makes its `else` branch unreachable; it is kept
verbatim here and the unreachability is proved below.) -/
def dataSection (data : List Nat) : List Nat :=
  if 5 < data.length then ((data.drop 3).dropLast).dropLast
  else (data.drop 3).dropLast

/-- Model of `FeederBLEProtocol.decode_notification` (lines 178-301):

* `len(data) < 4` short-circuits to `{"error": "Data too short"}`;
* otherwise `raw`/`raw_bytes`, `header`, `command`, `command_name` are set;
* under `len(data) >= 6` the footer, length byte, CRC byte and data section
  are added (the source's `data[-2] if len(data) > 2 else None` guard for
  the CRC is kept verbatim) and the per-command `elif` chain runs.

The surrounding `try/except Exception` of the source can only fire on an
exception none of the modelled operations can raise (all indexing is
guarded), so the success path is the whole behaviour for `len(data) >= 4`. -/
def decode_notification (data : List Nat) : DecodedNotification :=
  if data.length < 4 then
    { error := some "Data too short" }
  else if 6 ≤ data.length then
    applyCommandParse (data.getD 1 0) (dataSection data)
      { raw_bytes := some data
        header := some (data.getD 0 0)
        command := some (data.getD 1 0)
        command_name := some (commandName (data.getD 1 0))
        footer := some (data.getD (data.length - 1) 0)
        length := some (data.getD 2 0)
        crc := if 2 < data.length then some (data.getD (data.length - 2) 0)
          else none
        data_bytes := some (dataSection data) }
  else
    { raw_bytes := some data
      header := some (data.getD 0 0)
      command := some (data.getD 1 0)
      command_name := some (commandName (data.getD 1 0)) }

/-! ## Discovery filter (protocol.py lines 62-84)

Advertised names are modelled as `List Char`; Python's `str.upper()` on the
ASCII names this protocol handles is a per-character `Char.toUpper`. -/

/-- `FEEDER_NAME_PREFIXES = ("Du", "JK", "ALI", "PET", "FEED")` (line 63). -/
def FEEDER_NAME_PREFIXES : List (List Char) :=
  [['D', 'u'], ['J', 'K'], ['A', 'L', 'I'], ['P', 'E', 'T'],
   ['F', 'E', 'E', 'D']]

/-- Python `s.startswith(p)`. -/
def startsWith : List Char → List Char → Bool
  | _, [] => true
  | [], _ :: _ => false
  | a :: s, b :: p => a = b && startsWith s p

/-- Python `sub in s` (substring containment). -/
def hasSub (s sub : List Char) : Bool :=
  startsWith s sub ||
    match s with
    | [] => false
    | _ :: t => hasSub t sub

/-- Python `str.upper()` (ASCII). -/
def pyUpper (s : List Char) : List Char :=
  s.map Char.toUpper

/-- Model of `_is_feeder_by_name` (lines 79-84):
`if not name or not name.strip(): return False` then
`any(name.strip().upper().startswith(p.upper()) for p in FEEDER_NAME_PREFIXES)`. -/
def is_feeder_by_name (name : List Char) : Bool :=
  if name = [] ∨ pyStrip name = [] then false
  else FEEDER_NAME_PREFIXES.any fun p =>
    startsWith (pyUpper (pyStrip name)) (pyUpper p)

/-- Model of `detect_device_type` (lines 66-76).  `none` is Python `None`;
`if not device_name` also catches the empty string. -/
def detect_device_type (device_name : Option (List Char)) : String :=
  match device_name with
  | none => "standard"
  | some name =>
    if name = [] then "standard"
    else if hasSub (pyUpper name) ['J', 'K'] then "jk"
    else if hasSub (pyUpper name) ['A', 'L', 'I'] ||
        hasSub (pyUpper name) ['A', 'L', 'I', 'B', 'A', 'B', 'A'] then "ali"
    else "standard"

/-- The retention step of `discover_feeders` (line 104): an observed
`(address, advertisedName)` pair survives the scan filter exactly when
`_is_feeder_by_name` accepts its name. -/
def retainFeeders (pairs : List (String × List Char)) :
    List (String × List Char) :=
  pairs.filter fun q => is_feeder_by_name q.2

/-! ## Session ensure-usable check: `_ensure_connected` (lines 495-535)

The transport is an external collaborator; its observable outcomes during
one `_ensure_connected` call are collected in `EnsureEnv`.  The model
returns the boolean result of `_ensure_connected` together with the ordered
trace of transport actions it performed.  The outer `try/except` of lines
511-535 can only fire if an operation *outside* the inner
`try/except`-protected cycle raises; the only such operations are `hasattr`
checks and a debug log call, which do not raise, so that handler (the
disconnect-and-reconnect path) is unreachable when the handle reports
connected. -/

/-- Transport actions `_ensure_connected` can perform, in trace order. -/
inductive SessionAction where
  | connectFull
  | disconnectDev
  | stopNotify
  | pauseBriefly
  | startNotify
  deriving Repr, DecidableEq

/-- Outcomes the transport would give to each primitive during one
`_ensure_connected` call. -/
structure EnsureEnv where
  clientPresent : Bool
  isConnected : Bool
  hasServicesAttr : Bool
  notifyCharPresent : Bool
  stopNotifySucceeds : Bool
  startNotifySucceeds : Bool
  connectSucceeds : Bool
  deriving Repr, DecidableEq

/-- Model of `_ensure_connected`: result and action trace.

* `not self.client or not self.client.is_connected` → one full
  reconnect attempt (`self.connect()`), returning its outcome;
* otherwise, if the client has a `services` attribute and a notify
  characteristic is cached, cycle the subscription: `stop_notify`, a brief
  sleep, `start_notify`, with any exception of the cycle swallowed by the
  inner `except Exception` (a debug log only); then `return True`. -/
def ensure_connected (env : EnsureEnv) : Bool × List SessionAction :=
  if ¬ env.clientPresent ∨ ¬ env.isConnected then
    (env.connectSucceeds, [.connectFull])
  else if env.hasServicesAttr ∧ env.notifyCharPresent then
    if env.stopNotifySucceeds then
      (true, [.stopNotify, .pauseBriefly, .startNotify])
    else
      (true, [.stopNotify])
  else
    (true, [])

/-- The claim's "cycle fails" condition: the attempted unsubscribe or the
attempted resubscribe raises. -/
def cycleFails (env : EnsureEnv) : Prop :=
  env.stopNotifySucceeds = false ∨
    (env.stopNotifySucceeds = true ∧ env.startNotifySucceeds = false)

instance (env : EnsureEnv) : Decidable (cycleFails env) := by
  unfold cycleFails; infer_instance

/-! ## Shared helper lemmas -/

/-- The per-command fields of the result dictionary: all keys that only the
`elif` chain of lines 221-297 can set. -/
def perCommandFieldsNone (r : DecodedNotification) : Prop :=
  r.device_name = none ∧ r.device_version = none ∧ r.fault_code = none ∧
  r.power_mode = none ∧ r.feeding_status = none ∧
  r.feeding_status_text = none ∧ r.child_lock = none ∧
  r.child_lock_text = none ∧ r.prompt_sound = none ∧
  r.prompt_sound_text = none ∧ r.feed_response = none ∧
  r.feed_response_text = none ∧ r.feed_records = none ∧
  r.verification_response = none ∧ r.verification_success = none ∧
  r.feed_plan_slots = none

instance (r : DecodedNotification) : Decidable (perCommandFieldsNone r) := by
  unfold perCommandFieldsNone; infer_instance

/-- The per-command `elif` chain never touches the envelope fields. -/
theorem applyCommandParse_envelope (c : Nat) (ds : List Nat)
    (r : DecodedNotification) :
    (applyCommandParse c ds r).error = r.error ∧
    (applyCommandParse c ds r).raw_bytes = r.raw_bytes ∧
    (applyCommandParse c ds r).header = r.header ∧
    (applyCommandParse c ds r).command = r.command ∧
    (applyCommandParse c ds r).command_name = r.command_name ∧
    (applyCommandParse c ds r).footer = r.footer ∧
    (applyCommandParse c ds r).length = r.length ∧
    (applyCommandParse c ds r).crc = r.crc ∧
    (applyCommandParse c ds r).data_bytes = r.data_bytes := by
  unfold applyCommandParse
  dsimp only
  refine ⟨?_, ?_, ?_, ?_, ?_, ?_, ?_, ?_, ?_⟩
  all_goals simp only [apply_ite (f := DecodedNotification.error),
    apply_ite (f := DecodedNotification.raw_bytes),
    apply_ite (f := DecodedNotification.header),
    apply_ite (f := DecodedNotification.command),
    apply_ite (f := DecodedNotification.command_name),
    apply_ite (f := DecodedNotification.footer),
    apply_ite (f := DecodedNotification.length),
    apply_ite (f := DecodedNotification.crc),
    apply_ite (f := DecodedNotification.data_bytes), ite_self]

/-- A command byte above `0x13` matches no branch of the `elif` chain. -/
theorem applyCommandParse_unknown (c : Nat) (ds : List Nat)
    (r : DecodedNotification) (h : 19 < c) :
    applyCommandParse c ds r = r := by
  have hne : ∀ k : Nat, k ≤ 19 → ¬(c = k) := by omega
  unfold applyCommandParse
  rw [if_neg, if_neg, if_neg, if_neg, if_neg, if_neg, if_neg, if_neg, if_neg,
    if_neg]
  · exact hne 0x11 (by norm_num)
  all_goals exact fun hand => hne _ (by norm_num) hand.1

/-- A command byte above `0x13` renders to a hex string outside the command
map, so the lookup falls back to `"UNKNOWN"`. -/
theorem commandName_unknown (c : Nat) (h : 19 < c) :
    commandName c = "UNKNOWN" := by
  have hne : ∀ k : Nat, k ≤ 19 → ¬(c = k) := by omega
  unfold commandName
  rw [if_neg (hne 0 (by norm_num)), if_neg (hne 1 (by norm_num)),
    if_neg (hne 2 (by norm_num)), if_neg (hne 3 (by norm_num)),
    if_neg (hne 4 (by norm_num)), if_neg (hne 5 (by norm_num)),
    if_neg (hne 6 (by norm_num)), if_neg (hne 7 (by norm_num)),
    if_neg (hne 8 (by norm_num)), if_neg (hne 9 (by norm_num)),
    if_neg (hne 10 (by norm_num)), if_neg (hne 11 (by norm_num)),
    if_neg (hne 12 (by norm_num)), if_neg (hne 13 (by norm_num)),
    if_neg (hne 14 (by norm_num)), if_neg (hne 15 (by norm_num)),
    if_neg (hne 16 (by norm_num)), if_neg (hne 17 (by norm_num)),
    if_neg (hne 18 (by norm_num)), if_neg (hne 19 (by norm_num))]

/-- Short-input short-circuit of the decoder. -/
theorem decode_short (data : List Nat) (h : data.length < 4) :
    decode_notification data = { error := some "Data too short" } := by
  unfold decode_notification
  rw [if_pos h]

/-- Decoder on inputs of length 4 or 5: header block only. -/
theorem decode_mid (data : List Nat) (h4 : 4 ≤ data.length)
    (h6 : data.length < 6) :
    decode_notification data =
      { raw_bytes := some data
        header := some (data.getD 0 0)
        command := some (data.getD 1 0)
        command_name := some (commandName (data.getD 1 0)) } := by
  unfold decode_notification
  rw [if_neg (by omega), if_neg (by omega)]

/-- Decoder on inputs of length at least 6: full envelope (with the
`data[3:-2]` slice) followed by the per-command chain. -/
theorem decode_long (data : List Nat) (h6 : 6 ≤ data.length) :
    decode_notification data =
      applyCommandParse (data.getD 1 0) (((data.drop 3).dropLast).dropLast)
        { raw_bytes := some data
          header := some (data.getD 0 0)
          command := some (data.getD 1 0)
          command_name := some (commandName (data.getD 1 0))
          footer := some (data.getD (data.length - 1) 0)
          length := some (data.getD 2 0)
          crc := some (data.getD (data.length - 2) 0)
          data_bytes := some (((data.drop 3).dropLast).dropLast) } := by
  unfold decode_notification dataSection
  rw [if_neg (by omega), if_pos h6, if_pos (by omega : 5 < data.length),
    if_pos (by omega : 2 < data.length)]

/-- A list shorter than one slot parses to no slots. -/
theorem parseSlots_short : ∀ l : List Nat, l.length < 5 → parseSlots l = []
  | [], _ => rfl
  | [_], _ => rfl
  | [_, _], _ => rfl
  | [_, _, _], _ => rfl
  | [_, _, _, _], _ => rfl
  | _ :: _ :: _ :: _ :: _ :: _, h => absurd h (by simp)

/-- The slot loop parses exactly one slot per full 5-byte group. -/
theorem parseSlots_length : ∀ l : List Nat, (parseSlots l).length = l.length / 5
  | _ :: _ :: _ :: _ :: _ :: rest => by
    simp [parseSlots, parseSlots_length rest]
    omega
  | [] => rfl
  | [_] => by simp [parseSlots]
  | [_, _] => by simp [parseSlots]
  | [_, _, _] => by simp [parseSlots]
  | [_, _, _, _] => by simp [parseSlots]

/-- Appending a partial (shorter than 5 bytes) trailing group to whole slots
changes nothing: the trailing partial slot is discarded. -/
theorem parseSlots_append_partial :
    ∀ l t : List Nat, l.length % 5 = 0 → t.length < 5 →
      parseSlots (l ++ t) = parseSlots l
  | [], t, _, ht => by
    simpa [parseSlots] using parseSlots_short t ht
  | [_], _, h5, _ => by simp at h5
  | [_, _], _, h5, _ => by simp at h5
  | [_, _, _], _, h5, _ => by simp at h5
  | [_, _, _, _], _, h5, _ => by simp at h5
  | w :: h :: m :: p :: e :: rest, t, h5, ht => by
    have h5' : rest.length % 5 = 0 := by
      simp [List.length_cons] at h5
      omega
    simp [parseSlots, parseSlots_append_partial rest t h5' ht]

/-- The guard of `_is_feeder_by_name` is redundant: the name predicate is
exactly "the trimmed, upper-cased name starts with an upper-cased known
prefix" (an empty or all-whitespace name matches no prefix since every
prefix is nonempty). -/
theorem is_feeder_by_name_iff (name : List Char) :
    is_feeder_by_name name = true ↔
      (FEEDER_NAME_PREFIXES.any fun p =>
        startsWith (pyUpper (pyStrip name)) (pyUpper p)) = true := by
  unfold is_feeder_by_name
  by_cases hg : name = [] ∨ pyStrip name = []
  · have hs : pyStrip name = [] := by
      rcases hg with h | h
      · rw [h]; rfl
      · exact h
    rw [if_pos hg, hs]
    decide
  · rw [if_neg hg]

/-! ## Claim theorems -/

/-- Claim C1 counterexample: for the empty payload (which satisfies
`len(payload) ≤ 250`) the encoded frame is 5 bytes long, and the decoder
stores *no* data section for it (`data_bytes` is absent), so the decoded
data section does not equal the original (empty) payload. -/
theorem C1_cex :
    encode_command 0 none [] = some [0xEA, 0x00, 0x00, 0x00, 0xAE] ∧
    (decode_notification [0xEA, 0x00, 0x00, 0x00, 0xAE]).command = some 0 ∧
    (decode_notification [0xEA, 0x00, 0x00, 0x00, 0xAE]).data_bytes ≠
      some [] := by
  decide

/-- Claim C1 (amended): for every command id `0x00..0xFF` and every
*nonempty* payload of at most 250 bytes, decoding the frame produced by
`encode` with the default length recovers the command id in the `command`
field and the exact payload bytes in the data section.  (For the empty
payload the command still round-trips but no data section is populated.) -/
theorem C1_thm (cmd : Nat) (payload : List Nat) (hc : cmd ≤ 255)
    (h1 : 1 ≤ payload.length) (h2 : payload.length ≤ 250) :
    encode_command cmd none payload =
      some ([0xEA, cmd, payload.length] ++ payload ++ [0x00, 0xAE]) ∧
    (decode_notification
        ([0xEA, cmd, payload.length] ++ payload ++ [0x00, 0xAE])).command =
      some cmd ∧
    (decode_notification
        ([0xEA, cmd, payload.length] ++ payload ++ [0x00, 0xAE])).data_bytes =
      some payload := by
  have h6 : 6 ≤ ([0xEA, cmd, payload.length] ++ payload ++
      [0x00, 0xAE]).length := by
    simp
    omega
  have hds : ((([0xEA, cmd, payload.length] ++ payload ++
      [0x00, 0xAE]).drop 3).dropLast).dropLast = payload := by
    show (((payload ++ [0x00, 0xAE]).dropLast).dropLast) = payload
    simp
  refine ⟨?_, ?_, ?_⟩
  · unfold encode_command
    rw [if_pos ⟨hc, by simp [effectiveLength], by simp [effectiveLength]; omega⟩]
    simp [effectiveLength]
  · rw [decode_long _ h6, (applyCommandParse_envelope _ _ _).2.2.2.1]
    simp
  · rw [decode_long _ h6, (applyCommandParse_envelope _ _ _).2.2.2.2.2.2.2.2,
      hds]

/-- Claim C1 witness: the amended round-trip at command `0x03`,
payload `[0x07]`. -/
theorem C1_wit :
    encode_command 3 none [7] = some [0xEA, 3, 1, 7, 0x00, 0xAE] ∧
    (decode_notification [0xEA, 3, 1, 7, 0x00, 0xAE]).command = some 3 ∧
    (decode_notification [0xEA, 3, 1, 7, 0x00, 0xAE]).data_bytes = some [7] :=
  C1_thm 3 [7] (by decide) (by decide) (by decide)

/-- Claim C2: every frame `encode` returns is exactly `5 + len(payload)`
bytes; the bytes after the 3-byte header are the full payload followed by
the CRC placeholder and footer (never truncated); and an explicit length
override is written literally into the length byte (`data[2]`). -/
theorem C2_thm (cmd : Nat) (length : Option Int) (payload frame : List Nat)
    (henc : encode_command cmd length payload = some frame) :
    frame.length = 5 + payload.length ∧
    frame.drop 3 = payload ++ [0x00, 0xAE] ∧
    (∀ l : Int, length = some l → (frame.getD 2 0 : Int) = l) := by
  unfold encode_command at henc
  by_cases hcond : cmd ≤ 255 ∧ 0 ≤ effectiveLength length payload ∧
      effectiveLength length payload ≤ 255
  · rw [if_pos hcond] at henc
    obtain rfl : ([0xEA, cmd, (effectiveLength length payload).toNat] ++
        payload ++ [0x00, 0xAE]) = frame := by
      exact Option.some.inj henc
    refine ⟨by simp; omega, rfl, ?_⟩
    intro l hl
    subst hl
    show (((effectiveLength (some l) payload).toNat : Nat) : Int) = l
    exact Int.toNat_of_nonneg hcond.2.1
  · rw [if_neg hcond] at henc
    exact absurd henc (by simp)

/-- Claim C2 witness: command `0x08` with explicit length override `0`
(disagreeing with the 3-byte payload): the frame is still `5 + 3` bytes,
the payload is emitted in full, and the length byte is literally `0`. -/
theorem C2_wit :
    ([0xEA, 8, 0, 1, 2, 3, 0x00, 0xAE] : List Nat).length =
      5 + ([1, 2, 3] : List Nat).length ∧
    ([0xEA, 8, 0, 1, 2, 3, 0x00, 0xAE] : List Nat).drop 3 =
      [1, 2, 3] ++ [0x00, 0xAE] ∧
    (∀ l : Int, (some (0 : Int) : Option Int) = some l →
      ((([0xEA, 8, 0, 1, 2, 3, 0x00, 0xAE] : List Nat).getD 2 0 : Nat) : Int) =
        l) :=
  C2_thm 8 (some 0) [1, 2, 3] [0xEA, 8, 0, 1, 2, 3, 0x00, 0xAE] (by decide)

/-- Claim C3 counterexample: command id `0x20` lies outside the documented
enumerated range `0x00..0x13`, yet `encode` does not fail at all — it
returns a frame.  There is no `InvalidCommandId` check anywhere in
`encode_command`. -/
theorem C3_cex :
    encode_command 0x20 none [] = some [0xEA, 0x20, 0x00, 0x00, 0xAE] ∧
    encode_command 0x20 none [] ≠ none := by
  decide

/-- Claim C3 (amended): `encode` performs no enumerated-range validation:
every command id `0x00..0xFF` — including every id outside the documented
range `0x00..0x13` — produces a frame (given a payload of at most 255
bytes under the default length); ids above `0xFF` raise an exception
rather than returning a tagged `InvalidCommandId` error. -/
theorem C3_thm (cmd : Nat) (payload : List Nat) (hc : cmd ≤ 255)
    (hp : payload.length ≤ 255) :
    (encode_command cmd none payload).isSome = true := by
  unfold encode_command
  rw [if_pos ⟨hc, by simp [effectiveLength], by simp [effectiveLength]; omega⟩]
  rfl

/-- Claim C3 witness: the out-of-enumerated-range id `0x20` still encodes. -/
theorem C3_wit : (encode_command 0x20 none []).isSome = true :=
  C3_thm 0x20 [] (by decide) (by decide)

/-- Claim C10: `encode` fails (raises, modelled by `none`) exactly when the
command id exceeds `0xFF`, or the effective length byte — the override if
supplied, else `len(payload)` — lies outside `0..255`; on every other
input it returns a frame. -/
theorem C10_thm (cmd : Nat) (length : Option Int) (payload : List Nat) :
    encode_command cmd length payload = none ↔
      255 < cmd ∨ effectiveLength length payload < 0 ∨
        255 < effectiveLength length payload := by
  unfold encode_command
  by_cases hcond : cmd ≤ 255 ∧ 0 ≤ effectiveLength length payload ∧
      effectiveLength length payload ≤ 255
  · rw [if_pos hcond]
    simp only [reduceCtorEq, false_iff]
    omega
  · rw [if_neg hcond]
    simp only [true_iff]
    omega

/-- Claim C4: for every input of at least 4 bytes the decoder returns a
result with no error tag set (it never hard-fails: every branch of the
model is total and the `error` key is only written by the short-input
guard); when the command byte is not one of the twenty known operations
the `command_name` field is the explicit `"UNKNOWN"` variant and no
per-command interpretation is populated, leaving only the raw payload
fallback. -/
theorem C4_thm (data : List Nat) (h : 4 ≤ data.length) :
    (decode_notification data).error = none ∧
    (19 < data.getD 1 0 →
      (decode_notification data).command_name = some "UNKNOWN" ∧
      perCommandFieldsNone (decode_notification data)) := by
  by_cases h6 : 6 ≤ data.length
  · rw [decode_long data h6]
    refine ⟨?_, fun hc => ⟨?_, ?_⟩⟩
    · rw [(applyCommandParse_envelope _ _ _).1]
    · rw [(applyCommandParse_envelope _ _ _).2.2.2.2.1]
      rw [commandName_unknown _ hc]
    · rw [applyCommandParse_unknown _ _ _ hc]
      exact ⟨rfl, rfl, rfl, rfl, rfl, rfl, rfl, rfl, rfl, rfl, rfl, rfl, rfl,
        rfl, rfl, rfl⟩
  · rw [decode_mid data h (by omega)]
    refine ⟨rfl, fun hc => ⟨?_, ?_⟩⟩
    · show some (commandName (data.getD 1 0)) = some "UNKNOWN"
      rw [commandName_unknown _ hc]
    · exact ⟨rfl, rfl, rfl, rfl, rfl, rfl, rfl, rfl, rfl, rfl, rfl, rfl, rfl,
        rfl, rfl, rfl⟩

/-- Claim C4 witness: the 4-byte frame `EA 55 00 00` (unknown command
`0x55`) decodes without error, to the unknown-command variant, with no
per-command fields. -/
theorem C4_wit :
    (decode_notification [0xEA, 0x55, 0x00, 0x00]).error = none ∧
    (decode_notification [0xEA, 0x55, 0x00, 0x00]).command_name =
      some "UNKNOWN" ∧
    perCommandFieldsNone (decode_notification [0xEA, 0x55, 0x00, 0x00]) := by
  have h := C4_thm [0xEA, 0x55, 0x00, 0x00] (by decide)
  exact ⟨h.1, (h.2 (by decide)).1, (h.2 (by decide)).2⟩

/-- Claim C5: an input of 3 bytes or fewer fails with the short-frame error
tag (and nothing else is populated); a 4-byte input decodes without failure
and populates only the header/command fields (plus the raw echo of the
input), with every frame-envelope and per-command field absent. -/
theorem C5_thm (data : List Nat) :
    (data.length ≤ 3 →
      decode_notification data = { error := some "Data too short" }) ∧
    (data.length = 4 →
      (decode_notification data).error = none ∧
      (decode_notification data).header = some (data.getD 0 0) ∧
      (decode_notification data).command = some (data.getD 1 0) ∧
      (decode_notification data).command_name =
        some (commandName (data.getD 1 0)) ∧
      (decode_notification data).footer = none ∧
      (decode_notification data).length = none ∧
      (decode_notification data).crc = none ∧
      (decode_notification data).data_bytes = none ∧
      perCommandFieldsNone (decode_notification data)) := by
  constructor
  · intro h3
    exact decode_short data (by omega)
  · intro h4
    rw [decode_mid data (by omega) (by omega)]
    exact ⟨rfl, rfl, rfl, rfl, rfl, rfl, rfl, rfl,
      rfl, rfl, rfl, rfl, rfl, rfl, rfl, rfl, rfl, rfl, rfl, rfl, rfl, rfl,
      rfl, rfl⟩

/-- Claim C5 witness: the 3-byte input `EA 03 00` fails with the
short-frame tag; the 4-byte input `EA 03 00 07` decodes with only
header/command fields set. -/
theorem C5_wit :
    decode_notification [0xEA, 0x03, 0x00] = { error := some "Data too short" } ∧
    (decode_notification [0xEA, 0x03, 0x00, 0x07]).error = none ∧
    (decode_notification [0xEA, 0x03, 0x00, 0x07]).header = some 0xEA ∧
    (decode_notification [0xEA, 0x03, 0x00, 0x07]).command = some 0x03 ∧
    (decode_notification [0xEA, 0x03, 0x00, 0x07]).command_name =
      some "HEARTBEAT" ∧
    (decode_notification [0xEA, 0x03, 0x00, 0x07]).footer = none ∧
    (decode_notification [0xEA, 0x03, 0x00, 0x07]).length = none ∧
    (decode_notification [0xEA, 0x03, 0x00, 0x07]).crc = none ∧
    (decode_notification [0xEA, 0x03, 0x00, 0x07]).data_bytes = none ∧
    perCommandFieldsNone (decode_notification [0xEA, 0x03, 0x00, 0x07]) := by
  have h1 := (C5_thm [0xEA, 0x03, 0x00]).1 (by decide)
  have h2 := (C5_thm [0xEA, 0x03, 0x00, 0x07]).2 rfl
  exact ⟨h1, h2.1, h2.2.1, h2.2.2.1, h2.2.2.2.1, h2.2.2.2.2.1, h2.2.2.2.2.2.1,
    h2.2.2.2.2.2.2.1, h2.2.2.2.2.2.2.2.1, h2.2.2.2.2.2.2.2.2⟩

/-- Claim C6 counterexample: the 5-byte frame `EA 00 01 AA AE` is between 4
and 5 bytes long and its `data[3:-1]` slice is `[0xAA]`, yet the decoder
extracts no payload section at all for it (`data_bytes` is absent): the
`data[3:-1]` branch of the slice expression is unreachable because the
whole data-section block runs only for `len(data) >= 6`. -/
theorem C6_cex :
    ([0xEA, 0x00, 0x01, 0xAA, 0xAE] : List Nat).length = 5 ∧
    (([0xEA, 0x00, 0x01, 0xAA, 0xAE] : List Nat).drop 3).dropLast = [0xAA] ∧
    (decode_notification [0xEA, 0x00, 0x01, 0xAA, 0xAE]).data_bytes = none := by
  decide

/-- Claim C6 (amended): for every inbound frame of 4 or 5 bytes the decoder
extracts no payload section at all; the payload section is extracted — as
`data[3:-2]` — exactly for frames of at least 6 bytes, under which guard
the `data[3:-1]` alternative of the slice expression is never selected. -/
theorem C6_thm (data : List Nat) :
    (4 ≤ data.length → data.length ≤ 5 →
      (decode_notification data).data_bytes = none) ∧
    (6 ≤ data.length →
      (decode_notification data).data_bytes =
        some (((data.drop 3).dropLast).dropLast) ∧
      dataSection data = ((data.drop 3).dropLast).dropLast) := by
  constructor
  · intro h4 h5
    rw [decode_mid data h4 (by omega)]
  · intro h6
    constructor
    · rw [decode_long data h6,
        (applyCommandParse_envelope _ _ _).2.2.2.2.2.2.2.2]
    · unfold dataSection
      rw [if_pos (by omega : 5 < data.length)]

/-- Claim C6 witness: a 5-byte frame yields no `data_bytes`; a 6-byte frame
yields the `data[3:-2]` slice. -/
theorem C6_wit :
    (decode_notification [0xEA, 0x00, 0x01, 0xBB, 0xAE]).data_bytes = none ∧
    (decode_notification [0xEA, 0x09, 0x01, 0x01, 0x00, 0xAE]).data_bytes =
      some [0x01] ∧
    dataSection [0xEA, 0x09, 0x01, 0x01, 0x00, 0xAE] = [0x01] := by
  have h1 := (C6_thm [0xEA, 0x00, 0x01, 0xBB, 0xAE]).1 (by decide) (by decide)
  have h2 := (C6_thm [0xEA, 0x09, 0x01, 0x01, 0x00, 0xAE]).2 (by decide)
  exact ⟨h1, h2.1, h2.2⟩

/-- Claim C7: the count-prefixed schedule payload `01 7F 08 00 01 01` and
the bare payload `7F 08 00 01 01` decode (inside their frames) to the same
single slot {all seven weekdays, "08:00", 1 portion, enabled}; in general
the first byte is skipped as a slot count exactly when it lies in `1..15`
and the payload holds at least `1 + 5*count` bytes, slots are parsed in
5-byte groups while at least 5 bytes remain, and a trailing partial slot
is discarded. -/
theorem C7_thm :
    ((decode_notification
          [0xEA, 0x11, 0x06, 0x01, 0x7F, 0x08, 0x00, 0x01, 0x01, 0x00, 0xAE]
        ).feed_plan_slots =
      (decode_notification
          [0xEA, 0x11, 0x05, 0x7F, 0x08, 0x00, 0x01, 0x01, 0x00, 0xAE]
        ).feed_plan_slots ∧
      (decode_notification
          [0xEA, 0x11, 0x06, 0x01, 0x7F, 0x08, 0x00, 0x01, 0x01, 0x00, 0xAE]
        ).feed_plan_slots =
        some [{ weekdays := ["sun", "mon", "tue", "wed", "thu", "fri", "sat"],
                time := "08:00", portions := 1, enabled := true }]) ∧
    (∀ ds : List Nat,
      (slotCountSkipped ds → feedPlanSlots ds = parseSlots (ds.drop 1)) ∧
      (¬ slotCountSkipped ds → feedPlanSlots ds = parseSlots ds)) ∧
    (∀ l : List Nat, (parseSlots l).length = l.length / 5) ∧
    (∀ l t : List Nat, l.length % 5 = 0 → t.length < 5 →
      parseSlots (l ++ t) = parseSlots l) := by
  refine ⟨by decide, fun ds => ⟨fun hc => ?_, fun hc => ?_⟩,
    parseSlots_length, parseSlots_append_partial⟩
  · unfold feedPlanSlots
    rw [if_pos hc]
  · unfold feedPlanSlots
    rw [if_neg hc]

/-- Claim C7 witness: the count-skip rule, the slot count, and the
partial-slot discard, each at a concrete payload. -/
theorem C7_wit :
    feedPlanSlots [0x01, 0x7F, 0x08, 0x00, 0x01, 0x01] =
      parseSlots (([0x01, 0x7F, 0x08, 0x00, 0x01, 0x01] : List Nat).drop 1) ∧
    (parseSlots [0x7F, 0x08, 0x00, 0x01, 0x01, 0x09]).length = 1 ∧
    parseSlots ([0x7F, 0x08, 0x00, 0x01, 0x01] ++ [0x09]) =
      parseSlots [0x7F, 0x08, 0x00, 0x01, 0x01] := by
  have h := C7_thm
  exact ⟨(h.2.1 _).1 (by decide), h.2.2.1 [0x7F, 0x08, 0x00, 0x01, 0x01, 0x09],
    h.2.2.2 [0x7F, 0x08, 0x00, 0x01, 0x01] [0x09] (by decide) (by decide)⟩

/-- Claim C8: for every list of scanned `(address, advertisedName)` pairs,
the retained entries are exactly those whose trimmed name starts,
case-insensitively, with one of the prefixes `Du`, `JK`, `ALI`, `PET`,
`FEED`; in particular `"Du-Feeder-01"` is retained with variant
`standard`, `"jk_feeder"` is retained with variant `jk`, and
`"RandomBulb"` is not retained. -/
theorem C8_thm :
    (∀ (pairs : List (String × List Char)) (e : String × List Char),
        e ∈ retainFeeders pairs ↔
          e ∈ pairs ∧
            (FEEDER_NAME_PREFIXES.any fun p =>
              startsWith (pyUpper (pyStrip e.2)) (pyUpper p)) = true) ∧
    is_feeder_by_name "Du-Feeder-01".toList = true ∧
    detect_device_type (some "Du-Feeder-01".toList) = "standard" ∧
    is_feeder_by_name "jk_feeder".toList = true ∧
    detect_device_type (some "jk_feeder".toList) = "jk" ∧
    is_feeder_by_name "RandomBulb".toList = false := by
  refine ⟨fun pairs e => ?_, by decide, by decide, by decide, by decide,
    by decide⟩
  simp only [retainFeeders, List.mem_filter, is_feeder_by_name_iff]

/-- Claim C9 counterexample: a transport whose handle still reports
connected but whose unsubscribe call fails: the cycle fails, yet the
ensure-usable check performs no disconnect and no reconnect — the failure
is swallowed by the inner exception handler (a debug log) and the check
returns `True` anyway. -/
theorem C9_cex :
    ({ clientPresent := true, isConnected := true, hasServicesAttr := true,
       notifyCharPresent := true, stopNotifySucceeds := false,
       startNotifySucceeds := true, connectSucceeds := true } :
        EnsureEnv).isConnected = true ∧
    cycleFails
      { clientPresent := true, isConnected := true, hasServicesAttr := true,
        notifyCharPresent := true, stopNotifySucceeds := false,
        startNotifySucceeds := true, connectSucceeds := true } ∧
    (ensure_connected
      { clientPresent := true, isConnected := true, hasServicesAttr := true,
        notifyCharPresent := true, stopNotifySucceeds := false,
        startNotifySucceeds := true, connectSucceeds := true }).1 = true ∧
    SessionAction.connectFull ∉ (ensure_connected
      { clientPresent := true, isConnected := true, hasServicesAttr := true,
        notifyCharPresent := true, stopNotifySucceeds := false,
        startNotifySucceeds := true, connectSucceeds := true }).2 ∧
    SessionAction.disconnectDev ∉ (ensure_connected
      { clientPresent := true, isConnected := true, hasServicesAttr := true,
        notifyCharPresent := true, stopNotifySucceeds := false,
        startNotifySucceeds := true, connectSucceeds := true }).2 := by
  decide

/-- Claim C9 (amended): when the transport handle still reports connected
(and the client exposes services with a cached notify characteristic) the
subscription cycle is attempted — unsubscribe, then on success a brief
pause and resubscribe — but any failure of the cycle is swallowed and the
check returns `True` with no disconnect and no reconnect; a full reconnect
(one `connect()` call) is triggered exactly when the client is absent or
reports disconnected. -/
theorem C9_thm (env : EnsureEnv) :
    (env.clientPresent = true → env.isConnected = true →
      (ensure_connected env).1 = true ∧
      SessionAction.connectFull ∉ (ensure_connected env).2 ∧
      SessionAction.disconnectDev ∉ (ensure_connected env).2 ∧
      (env.hasServicesAttr = true → env.notifyCharPresent = true →
        (env.stopNotifySucceeds = true →
          (ensure_connected env).2 =
            [.stopNotify, .pauseBriefly, .startNotify]) ∧
        (env.stopNotifySucceeds = false →
          (ensure_connected env).2 = [.stopNotify]))) ∧
    ((env.clientPresent = false ∨ env.isConnected = false) →
      (ensure_connected env).2 = [.connectFull] ∧
      (ensure_connected env).1 = env.connectSucceeds) := by
  obtain ⟨cp, ic, hs, nc, ss, st, cs⟩ := env
  cases cp <;> cases ic <;> cases hs <;> cases nc <;> cases ss <;> cases st <;>
    cases cs <;> decide

/-- Claim C9 witness: for a connected handle whose unsubscribe fails, the
check returns `True` with trace `[stopNotify]` and no reconnect actions. -/
theorem C9_wit :
    (ensure_connected
      { clientPresent := true, isConnected := true, hasServicesAttr := true,
        notifyCharPresent := true, stopNotifySucceeds := false,
        startNotifySucceeds := true, connectSucceeds := false }).1 = true ∧
    SessionAction.connectFull ∉ (ensure_connected
      { clientPresent := true, isConnected := true, hasServicesAttr := true,
        notifyCharPresent := true, stopNotifySucceeds := false,
        startNotifySucceeds := true, connectSucceeds := false }).2 ∧
    SessionAction.disconnectDev ∉ (ensure_connected
      { clientPresent := true, isConnected := true, hasServicesAttr := true,
        notifyCharPresent := true, stopNotifySucceeds := false,
        startNotifySucceeds := true, connectSucceeds := false }).2 ∧
    (ensure_connected
      { clientPresent := true, isConnected := true, hasServicesAttr := true,
        notifyCharPresent := true, stopNotifySucceeds := false,
        startNotifySucceeds := true, connectSucceeds := false }).2 =
      [.stopNotify] := by
  have h := (C9_thm
    { clientPresent := true, isConnected := true, hasServicesAttr := true,
      notifyCharPresent := true, stopNotifySucceeds := false,
      startNotifySucceeds := true, connectSucceeds := false }).1 rfl rfl
  exact ⟨h.1, h.2.1, h.2.2.1, (h.2.2.2 rfl rfl).2 rfl⟩

end Petnetizen
